import Mathlib

/-!
Verification of the AIS (Artificial Images Simulator) core against its
natural-language specification.  The Python sources are shallowly embedded:
numbers carried in the CCD operation-mode dictionary become a `PyNum`
(Python `int` or `float`, the latter denoted by an exact rational),
dictionaries become insertion-ordered association lists, and fallible code
returns `Except PyErr`.  Non-integer decimal literals of the source are
written with `mkRat` (so `0.1` is `mkRat 1 10` and `1e-5` is
`mkRat 1 100000`), which keeps every embedded function evaluable by `decide`.
-/

set_option autoImplicit false
set_option maxRecDepth 16000
set_option linter.unusedVariables false

namespace AISVerif

/-- A Python number as stored in the CCD operation-mode dictionary: either an
`int` or a `float`.  Float values are denoted by exact rationals (every value
occurring in the configuration domain is a short decimal). -/
inductive PyNum where
  | int (n : ℤ)
  | float (q : ℚ)
  deriving DecidableEq, Repr

/-- Numeric denotation of a Python number.  Python compares `int` and `float`
by numeric value (`1 == 1.0` is `True`), which this captures. -/
def PyNum.toQ : PyNum → ℚ
  | .int n => (n : ℚ)
  | .float q => q

/-- Python `x in [q1, ..., qn]` for a number `x` and a list of numeric
literals. -/
def pyMem (v : PyNum) (l : List ℚ) : Bool := l.any (fun q => v.toQ == q)

/-- Python `type(x) is int` (`float` values fail it even when integral). -/
def pyTypeIsInt : PyNum → Bool
  | .int _ => true
  | .float _ => false

/-- Python `type(x) in [float, int]`: our numeric domain always satisfies it. -/
def pyTypeIsNumber : PyNum → Bool := fun _ => true

/-- Python `x in [float, int]` where `x` is a NUMBER and `float`, `int` are
the type objects themselves: a number never equals a type object, so the
membership test is `False` for every number.  (The source writes this where
it plainly meant `type(x) in [float, int]`.) -/
def pyNumEqTypeObj : PyNum → Bool := fun _ => false

/-- Errors raised by the embedded code: Python `ValueError` and `KeyError`.
Messages keep the fixed text of the source and drop the interpolated
f-string tail. -/
inductive PyErr where
  | valueError (msg : String)
  | keyError (key : String)
  deriving DecidableEq, Repr

deriving instance DecidableEq for Except

/-- A Python dictionary with string keys: an association list in insertion
order (Python dictionaries preserve insertion order and have unique keys). -/
def PyDict : Type := List (String × PyNum)

/-- The keys of a dictionary, in insertion order (Python `d.keys()`). -/
def PyDict.keys (d : PyDict) : List String := d.map Prod.fst

/-- Python `d[k]`: the value at key `k`, or a `KeyError` when absent. -/
def pyGet (d : PyDict) (k : String) : Except PyErr PyNum :=
  match d.find? (fun kv => kv.1 == k) with
  | some kv => .ok kv.2
  | none => .error (.keyError k)

/-- Access to a present key succeeds. -/
theorem pyGet_of_mem (d : PyDict) (k : String) (h : k ∈ d.keys) :
    ∃ v, pyGet d k = .ok v := by
  unfold pyGet
  obtain ⟨kv, hkv, heq⟩ := List.mem_map.1 h
  have hs : (d.find? (fun kv => kv.1 == k)).isSome :=
    List.find?_isSome.2 ⟨kv, hkv, by simp [heq]⟩
  cases hf : d.find? (fun kv => kv.1 == k) with
  | none => rw [hf] at hs; simp at hs
  | some kv' => exact ⟨kv'.2, rfl⟩

/-- Access to an absent key raises `KeyError` for that key. -/
theorem pyGet_of_not_mem (d : PyDict) (k : String) (h : k ∉ d.keys) :
    pyGet d k = .error (.keyError k) := by
  unfold pyGet
  have hf : d.find? (fun kv => kv.1 == k) = none := by
    refine List.find?_eq_none.2 fun kv hkv => ?_
    simp only [beq_iff_eq]
    intro heq
    exact h (List.mem_map.2 ⟨kv, hkv, heq⟩)
  rw [hf]

theorem except_bind_ok {α β : Type} (a : α) (f : α → Except PyErr β) :
    (Except.ok a >>= f) = f a := rfl

theorem except_bind_err {α β : Type} (e : PyErr) (f : α → Except PyErr β) :
    ((Except.error e : Except PyErr α) >>= f) = Except.error e := rfl

/-- The values of a CCD operation-mode dictionary once extracted. -/
structure ModeVals where
  em_mode : PyNum
  em_gain : PyNum
  hss : PyNum
  preamp : PyNum
  binn : PyNum
  t_exp : PyNum
  ccd_temp : PyNum
  deriving DecidableEq, Repr

/-- The fixed keyword list of `Artificial_Image_Simulator` (src/code/AIS/AIS.py
lines 200-201). -/
def dic_keywords_list_code : List String :=
  ["binn", "ccd_temp", "em_gain", "em_mode", "hss", "preamp", "t_exp"]

/-- The fixed keyword list of `Artificial_Images_Simulator` (src/AIS/AIS.py
lines 200-201); note the `bin` key and the insertion-order convention. -/
def dic_keywords_list_ais : List String :=
  ["em_mode", "em_gain", "preamp", "hss", "bin", "t_exp", "ccd_temp"]

/-- Python `l.sort()` sorts in place and returns `None`; the source compares
the two `None` results, so the comparison can never differ. -/
def pyListSortRet (_ : List String) : Option (List String) := none

/-- Key-stage of `Artificial_Image_Simulator._verify_ccd_operation_mode`
(src/code/AIS/AIS.py lines 190-210): extract the seven fields (a missing key
raises `KeyError` here, before any explicit check), reject unknown keys, and
run the (ineffective) `list.sort()` comparison. -/
def verify_keys_code (d : PyDict) : Except PyErr ModeVals := do
  let em_mode ← pyGet d "em_mode"
  let em_gain ← pyGet d "em_gain"
  let hss ← pyGet d "hss"
  let preamp ← pyGet d "preamp"
  let binn ← pyGet d "binn"
  let t_exp ← pyGet d "t_exp"
  let ccd_temp ← pyGet d "ccd_temp"
  match d.find? (fun kv => !(dic_keywords_list_code.contains kv.1)) with
  | some kv =>
      throw (.valueError ("The name provided is not a CCD parameter: " ++ kv.1))
  | none => pure ()
  if pyListSortRet (d.keys) ≠ pyListSortRet dic_keywords_list_code then
    throw (.valueError "There is a missing parameter of the CCD operation mode")
  pure ⟨em_mode, em_gain, hss, preamp, binn, t_exp, ccd_temp⟩

/-- Value-stage of `Artificial_Image_Simulator._verify_ccd_operation_mode`
(src/code/AIS/AIS.py lines 212-251).  The EM-gain branch transcribes the
source literally: `if em_gain not in [float, int]` compares the NUMBER
`em_gain` against the type objects, which always fails, so every EM-mode
configuration is rejected there. -/
def verify_values_code (v : ModeVals) : Except PyErr Unit := do
  if pyMem v.em_mode [0, 1] = false then
    throw (.valueError "Invalid value for the EM mode")
  if v.em_mode.toQ = 0 then
    (if v.em_gain.toQ ≠ 1 then
      throw (.valueError "For the Conventional Mode, the EM Gain must be 1")
    else pure ())
  else
    (if (pyNumEqTypeObj v.em_gain || pyNumEqTypeObj v.em_gain) = false then
      throw (.valueError "The EM gain must be a number")
    else if v.em_gain.toQ < 2 ∨ 300 < v.em_gain.toQ then
      throw (.valueError "EM gain out of range [2, 300]")
    else pure ())
  if pyMem v.preamp [1, 2] = false then
    throw (.valueError "Invalid value for the pre-amplification")
  if pyMem v.hss [mkRat 1 10, 1, 10, 20, 30] = false then
    throw (.valueError "Invalid value for the Readout rate")
  if pyMem v.binn [1, 2] = false then
    throw (.valueError "Invalid value for the binning")
  if pyTypeIsNumber v.t_exp = false then
    throw (.valueError "The exposure time must be a number")
  else if v.t_exp.toQ < mkRat 1 100000 then
    throw (.valueError "Invalid value for the exposure time")
  if pyTypeIsNumber v.ccd_temp = false then
    throw (.valueError "The CCD temperature must be a number")
  if v.ccd_temp.toQ < -80 ∨ 20 < v.ccd_temp.toQ then
    throw (.valueError "CCD temperature out of range [-80, 20]")

/-- `Artificial_Image_Simulator._verify_ccd_operation_mode`
(src/code/AIS/AIS.py lines 190-251): key stage followed by value stage. -/
def verify_ccd_operation_mode_code (d : PyDict) : Except PyErr Unit := do
  let v ← verify_keys_code d
  verify_values_code v

/-- `Artificial_Images_Simulator._verify_ccd_operation_mode`
(src/AIS/AIS.py lines 197-236): unknown keys are rejected, then the key list
is compared, in order, against the fixed keyword list, then the values are
checked (this revision has no type checks and no EM-gain type slip). -/
def verify_ccd_operation_mode_ais (d : PyDict) : Except PyErr Unit := do
  match d.find? (fun kv => !(dic_keywords_list_ais.contains kv.1)) with
  | some kv =>
      throw (.valueError ("The name provided is not a CCD parameter: " ++ kv.1))
  | none => pure ()
  if d.keys ≠ dic_keywords_list_ais then
    throw (.valueError "There is a missing parameter of the CCD operation mode")
  let em_mode ← pyGet d "em_mode"
  if pyMem em_mode [0, 1] = false then
    throw (.valueError "Invalid value for the EM mode")
  let em_gain ← pyGet d "em_gain"
  if em_mode.toQ = 0 then
    (if em_gain.toQ ≠ 1 then
      throw (.valueError "For the Conventional Mode, the EM Gain must be 1")
    else pure ())
  else
    (if em_gain.toQ < 2 ∨ 300 < em_gain.toQ then
      throw (.valueError "EM gain out of range [2, 300]")
    else pure ())
  let preamp ← pyGet d "preamp"
  if pyMem preamp [1, 2] = false then
    throw (.valueError "Invalid value for the pre-amplification")
  let hss ← pyGet d "hss"
  if pyMem hss [mkRat 1 10, 1, 10, 20, 30] = false then
    throw (.valueError "Invalid value for the Readout rate")
  let binn ← pyGet d "bin"
  if pyMem binn [1, 2] = false then
    throw (.valueError "Invalid value for the binning")
  let t_exp ← pyGet d "t_exp"
  if t_exp.toQ < mkRat 1 100000 then
    throw (.valueError "Invalid value for the exposure time")
  let ccd_temp ← pyGet d "ccd_temp"
  if ccd_temp.toQ < -80 ∨ 20 < ccd_temp.toQ then
    throw (.valueError "CCD temperature out of range [-80, 20]")

/-- Base table-index selection of `_configure_gain`
(src/code/AIS/AIS.py lines 289-303): pick a base row index from the readout
rate `hss` and the EM mode, rejecting any unexpected `hss`. -/
def configure_gain_base (hss em_mode : ℚ) : Except PyErr ℕ :=
  if hss = mkRat 1 10 then .ok 23
  else if hss = 1 then (if em_mode = 1 then .ok 15 else .ok 19)
  else if hss = 10 then .ok 11
  else if hss = 20 then .ok 7
  else if hss = 30 then .ok 3
  else .error (.valueError "Unexpected value for the readout rate")

/-- Table-index resolution of `Artificial_Image_Simulator._configure_gain`
(src/code/AIS/AIS.py lines 284-310): the base index from `(hss, em_mode)`,
plus 2 when the pre-amplification is 2. -/
def configure_gain_tab_index (hss em_mode preamp : ℚ) : Except PyErr ℕ :=
  match configure_gain_base hss em_mode with
  | .error e => .error e
  | .ok base => .ok (if preamp = 2 then base + 2 else base)

theorem q_one_ne_tenth : (1 : ℚ) ≠ mkRat 1 10 := by decide

theorem q_ten_ne_tenth : (10 : ℚ) ≠ mkRat 1 10 := by decide

theorem q_ten_ne_one : (10 : ℚ) ≠ 1 := by decide

theorem q_twenty_ne_tenth : (20 : ℚ) ≠ mkRat 1 10 := by decide

theorem q_twenty_ne_one : (20 : ℚ) ≠ 1 := by decide

theorem q_twenty_ne_ten : (20 : ℚ) ≠ 10 := by decide

theorem q_thirty_ne_tenth : (30 : ℚ) ≠ mkRat 1 10 := by decide

theorem q_thirty_ne_one : (30 : ℚ) ≠ 1 := by decide

theorem q_thirty_ne_ten : (30 : ℚ) ≠ 10 := by decide

theorem q_thirty_ne_twenty : (30 : ℚ) ≠ 20 := by decide

/-- When the base index resolves, the final index adds 2 exactly for
preamp = 2. -/
theorem tab_index_of_base (hss em_mode preamp : ℚ) (base : ℕ)
    (hb : configure_gain_base hss em_mode = .ok base) :
    configure_gain_tab_index hss em_mode preamp =
      .ok (base + if preamp = 2 then 2 else 0) := by
  unfold configure_gain_tab_index
  rw [hb]
  show Except.ok (if preamp = 2 then base + 2 else base) =
    Except.ok (base + if preamp = 2 then 2 else 0)
  by_cases hp : preamp = 2
  · rw [if_pos hp, if_pos hp]
  · rw [if_neg hp, if_neg hp, Nat.add_zero]

/-- When the base index resolution fails, the final index computation fails
with the same error. -/
theorem tab_index_of_err (hss em_mode preamp : ℚ) (e : PyErr)
    (hb : configure_gain_base hss em_mode = .error e) :
    configure_gain_tab_index hss em_mode preamp = .error e := by
  unfold configure_gain_tab_index
  rw [hb]

/-- C1: for every CCD operation mode accepted by validation, the calibration
table index equals a base determined by (hss, em_mode) — hss=0.1 gives 23;
hss=1 gives 19, or 15 in EM mode; hss=10 gives 11; hss=20 gives 7; hss=30
gives 3 — plus 2 exactly when preamp = 2; every other hss value fails with a
configuration error instead of producing an index. -/
theorem C1_tab_index_resolution (hss em_mode preamp : ℚ) :
    (hss = mkRat 1 10 →
      configure_gain_tab_index hss em_mode preamp =
        .ok (23 + if preamp = 2 then 2 else 0)) ∧
    (hss = 1 →
      configure_gain_tab_index hss em_mode preamp =
        .ok ((if em_mode = 1 then 15 else 19) + if preamp = 2 then 2 else 0)) ∧
    (hss = 10 →
      configure_gain_tab_index hss em_mode preamp =
        .ok (11 + if preamp = 2 then 2 else 0)) ∧
    (hss = 20 →
      configure_gain_tab_index hss em_mode preamp =
        .ok (7 + if preamp = 2 then 2 else 0)) ∧
    (hss = 30 →
      configure_gain_tab_index hss em_mode preamp =
        .ok (3 + if preamp = 2 then 2 else 0)) ∧
    (hss ∉ ([mkRat 1 10, 1, 10, 20, 30] : List ℚ) →
      configure_gain_tab_index hss em_mode preamp =
        .error (.valueError "Unexpected value for the readout rate")) := by
  refine ⟨?_, ?_, ?_, ?_, ?_, ?_⟩ <;> intro h
  · subst h
    refine tab_index_of_base _ _ _ _ ?_
    unfold configure_gain_base
    rw [if_pos rfl]
  · subst h
    refine tab_index_of_base _ _ _ _ ?_
    unfold configure_gain_base
    rw [if_neg q_one_ne_tenth, if_pos rfl]
    by_cases he : em_mode = 1
    · rw [if_pos he, if_pos he]
    · rw [if_neg he, if_neg he]
  · subst h
    refine tab_index_of_base _ _ _ _ ?_
    unfold configure_gain_base
    rw [if_neg q_ten_ne_tenth, if_neg q_ten_ne_one, if_pos rfl]
  · subst h
    refine tab_index_of_base _ _ _ _ ?_
    unfold configure_gain_base
    rw [if_neg q_twenty_ne_tenth, if_neg q_twenty_ne_one,
      if_neg q_twenty_ne_ten, if_pos rfl]
  · subst h
    refine tab_index_of_base _ _ _ _ ?_
    unfold configure_gain_base
    rw [if_neg q_thirty_ne_tenth, if_neg q_thirty_ne_one,
      if_neg q_thirty_ne_ten, if_neg q_thirty_ne_twenty, if_pos rfl]
  · simp only [List.mem_cons, List.not_mem_nil, or_false, not_or] at h
    obtain ⟨h1, h2, h3, h4, h5⟩ := h
    refine tab_index_of_err _ _ _ _ ?_
    unfold configure_gain_base
    rw [if_neg h1, if_neg h2, if_neg h3, if_neg h4, if_neg h5]

/-- Witness for C1 at concrete operating points: hss=0.1 with preamp=2 gives
index 25, hss=1 in EM mode with preamp=1 gives 15, and the invalid hss=7 is
rejected with a configuration error. -/
theorem C1_witness :
    configure_gain_tab_index (mkRat 1 10) 0 2 = .ok 25 ∧
    configure_gain_tab_index 1 1 1 = .ok 15 ∧
    configure_gain_tab_index 7 0 1 =
      .error (.valueError "Unexpected value for the readout rate") := by
  refine ⟨?_, ?_, ?_⟩
  · have h := (C1_tab_index_resolution (mkRat 1 10) 0 2).1 rfl
    simpa using h
  · have h := (C1_tab_index_resolution 1 1 1).2.1 rfl
    simpa using h
  · exact (C1_tab_index_resolution 7 0 1).2.2.2.2.2 (by decide)

/-- An EM-mode configuration whose `em_gain` of 2 lies inside [2, 300], for
the `Artificial_Image_Simulator` key convention. -/
def emModeDictCode : PyDict :=
  [("em_mode", .int 1), ("em_gain", .int 2), ("preamp", .int 1),
   ("hss", .int 1), ("binn", .int 1), ("t_exp", .int 1),
   ("ccd_temp", .int (-70))]

/-- The same EM-mode configuration for the `Artificial_Images_Simulator` key
convention (key `bin`, canonical insertion order). -/
def emModeDictAis : PyDict :=
  [("em_mode", .int 1), ("em_gain", .int 2), ("preamp", .int 1),
   ("hss", .int 1), ("bin", .int 1), ("t_exp", .int 1),
   ("ccd_temp", .int (-70))]

/-- C2: the claim says an em_mode=1 configuration with em_gain in [2, 300] is
accepted.  The `Artificial_Image_Simulator` revision instead rejects EVERY
em_mode=1 configuration: its check `em_gain not in [float, int]` compares the
number against the type objects and always fails, so the valid em_gain=2
configuration dies with "The EM gain must be a number".  The older
`Artificial_Images_Simulator` revision accepts the same configuration, as the
claim states. -/
theorem C2_em_gain_validation_bug :
    verify_ccd_operation_mode_code emModeDictCode =
      .error (.valueError "The EM gain must be a number") ∧
    verify_ccd_operation_mode_ais emModeDictAis = .ok () := by
  constructor
  · decide
  · decide

/-- `Concrete_Channel_1.calculate_dark_current`
(src/code/CHC/channel_creator.py lines 102-118). -/
noncomputable def Concrete_Channel_1.calculate_dark_current (T : ℝ) : ℝ :=
  24.66 * Real.exp (0.0015 * T ^ 2 + 0.29 * T)

/-- `Concrete_Channel_2.calculate_dark_current`
(src/code/CHC/channel_creator.py lines 134-150). -/
noncomputable def Concrete_Channel_2.calculate_dark_current (T : ℝ) : ℝ :=
  35.26 * Real.exp (0.0019 * T ^ 2 + 0.31 * T)

/-- `Concrete_Channel_3.calculate_dark_current`
(src/code/CHC/channel_creator.py lines 166-182). -/
noncomputable def Concrete_Channel_3.calculate_dark_current (T : ℝ) : ℝ :=
  9.67 * Real.exp (0.0012 * T ^ 2 + 0.25 * T)

/-- `Concrete_Channel_4.calculate_dark_current`
(src/code/CHC/channel_creator.py lines 198-214). -/
noncomputable def Concrete_Channel_4.calculate_dark_current (T : ℝ) : ℝ :=
  5.92 * Real.exp (0.0005 * T ^ 2 + 0.18 * T)

/-- Channel dispatch of the orchestrator (src/code/AIS/AIS.py lines 174-182):
channel ids 1-4 select the concrete channel classes; the dark current of the
selected channel at temperature `T`. -/
noncomputable def calculate_dark_current (channel : ℕ) (T : ℝ) : ℝ :=
  if channel = 1 then Concrete_Channel_1.calculate_dark_current T
  else if channel = 2 then Concrete_Channel_2.calculate_dark_current T
  else if channel = 3 then Concrete_Channel_3.calculate_dark_current T
  else if channel = 4 then Concrete_Channel_4.calculate_dark_current T
  else 0

/-- The channel-specific dark-current coefficient triple (a, b, c) named by
the claim. -/
def darkCoef : ℕ → ℝ × ℝ × ℝ
  | 1 => (24.66, 0.0015, 0.29)
  | 2 => (35.26, 0.0019, 0.31)
  | 3 => (9.67, 0.0012, 0.25)
  | 4 => (5.92, 0.0005, 0.18)
  | _ => (0, 0, 0)

/-- C4: for every channel in {1,2,3,4} and every temperature T, the dark
current equals a * exp(b*T^2 + c*T) with that channel's coefficient triple —
Channel 1 (24.66, 0.0015, 0.29), Channel 2 (35.26, 0.0019, 0.31), Channel 3
(9.67, 0.0012, 0.25), Channel 4 (5.92, 0.0005, 0.18) — and for every T in
[-80, 20] the value is strictly positive. -/
theorem C4_dark_current_formula_and_positivity (channel : ℕ)
    (hch : channel ∈ ([1, 2, 3, 4] : List ℕ)) (T : ℝ) :
    calculate_dark_current channel T =
      (darkCoef channel).1 *
        Real.exp ((darkCoef channel).2.1 * T ^ 2 + (darkCoef channel).2.2 * T) ∧
    (-80 ≤ T → T ≤ 20 → 0 < calculate_dark_current channel T) := by
  fin_cases hch <;>
    refine ⟨rfl, fun _ _ => ?_⟩ <;>
      simp only [calculate_dark_current, Concrete_Channel_1.calculate_dark_current,
        Concrete_Channel_2.calculate_dark_current,
        Concrete_Channel_3.calculate_dark_current,
        Concrete_Channel_4.calculate_dark_current, if_true, if_false,
        reduceIte] <;>
      positivity

/-- Witness for C4: Channel 1 at T = 0 lies in the valid range and has a
strictly positive dark current. -/
theorem C4_witness : 0 < calculate_dark_current 1 0 :=
  (C4_dark_current_formula_and_positivity 1 (by decide) 0).2 (by norm_num)
    (by norm_num)

/-- Decimal digits of the fractional part `q` (with `0 ≤ q < 1`), up to the
given fuel; rendering stops when the remainder is exhausted. -/
def fracDigitsAux : ℕ → ℚ → String
  | 0, _ => ""
  | k + 1, q =>
    if q = 0 then ""
    else toString (Int.floor (q * 10)) ++
      fracDigitsAux k (q * 10 - (Int.floor (q * 10) : ℚ))

/-- Python `str` on a float, for the terminating short decimals of the
configuration domain: integer part, a dot, and the fractional digits (`.0`
when the value is integral), e.g. `str(0.1) = "0.1"`, `str(1.0) = "1.0"`. -/
def pyFloatStr (q : ℚ) : String :=
  let sign := if q < 0 then "-" else ""
  let aq : ℚ := |q|
  let ip : ℤ := Int.floor aq
  let ds := fracDigitsAux 17 (aq - (ip : ℚ))
  sign ++ toString ip ++ "." ++ (if ds = "" then "0" else ds)

/-- Python `str` on a number: `str(1) = "1"` for ints, decimal rendering for
floats. -/
def pyStr : PyNum → String
  | .int n => toString n
  | .float q => pyFloatStr q

/-- `Artificial_Image_Simulator._configure_image_name`
(src/code/AIS/AIS.py lines 257-282, with the default
`include_star_flux=False`): the image name concatenated from the mode tag and
the rendered configuration values. -/
def configure_image_name (v : ModeVals) : String :=
  let em_gain_s := "_G" ++ pyStr v.em_gain
  let em_mode_s := if v.em_mode.toQ = 1 then "EM" else "CONV"
  let hss_s := "_HSS" ++ pyStr v.hss
  let preamp_s := "_PA" ++ pyStr v.preamp
  let binn_s := "_B" ++ pyStr v.binn
  let t_exp_s := "_TEXP" ++ pyStr v.t_exp
  em_mode_s ++ hss_s ++ preamp_s ++ binn_s ++ t_exp_s ++ em_gain_s

theorem q_zero_ne_one : (0 : ℚ) ≠ 1 := by decide

theorem q_one_ne_zero : (1 : ℚ) ≠ 0 := by decide

/-- C5: for every valid configuration (em_mode 0 or 1), the image name is
('CONV' if em_mode=0 else 'EM') + '_HSS' + hss + '_PA' + preamp + '_B' + binn
+ '_TEXP' + t_exp + '_G' + em_gain. -/
theorem C5_image_name_format (v : ModeVals)
    (hm : v.em_mode.toQ = 0 ∨ v.em_mode.toQ = 1) :
    configure_image_name v =
      (if v.em_mode.toQ = 0 then "CONV" else "EM") ++
        ("_HSS" ++ pyStr v.hss) ++ ("_PA" ++ pyStr v.preamp) ++
        ("_B" ++ pyStr v.binn) ++ ("_TEXP" ++ pyStr v.t_exp) ++
        ("_G" ++ pyStr v.em_gain) := by
  unfold configure_image_name
  rcases hm with hm | hm
  · rw [hm, if_neg q_zero_ne_one, if_pos rfl]
  · rw [hm, if_pos rfl, if_neg q_one_ne_zero]

/-- Witness for C5: the conventional mode with hss=1, preamp=1, binn=1,
t_exp=1, em_gain=1 is named exactly CONV_HSS1_PA1_B1_TEXP1_G1. -/
theorem C5_witness :
    configure_image_name
      ⟨.int 0, .int 1, .int 1, .int 1, .int 1, .int 1, .int (-70)⟩ =
      "CONV_HSS1_PA1_B1_TEXP1_G1" := by
  rw [C5_image_name_format
    ⟨.int 0, .int 1, .int 1, .int 1, .int 1, .int 1, .int (-70)⟩
    (Or.inl (by decide))]
  decide

/-- Bias-level validation of `Artificial_Image_Simulator.__init__`
(src/code/AIS/AIS.py lines 153-159): must be of type `int`, and values
`<= 0` are rejected as not positive. -/
def store_bias_level_code (b : PyNum) : Except PyErr PyNum :=
  if pyTypeIsInt b = false then
    .error (.valueError "The bias level must be an integer")
  else if b.toQ ≤ 0 then .error (.valueError "The bias level must be positive")
  else .ok b

/-- Bias-level validation of `Artificial_Images_Simulator.__init__`
(src/AIS/AIS.py lines 161-167): must be of type `int`, and values `>= 0`
are stored. -/
def store_bias_level_ais (b : PyNum) : Except PyErr PyNum :=
  if pyTypeIsInt b = false then
    .error (.valueError "The bias level must be an integer")
  else if 0 ≤ b.toQ then .ok b
  else .error (.valueError "The bias level must be positive")

theorem bool_true_ne_false : ¬(true = false) := by decide

/-- C8 counterexample: the claim says bias_level = 0 is accepted, but the
`Artificial_Image_Simulator` constructor rejects 0 with "The bias level must
be positive" (its test is `bias_level <= 0`). -/
theorem C8_counterexample :
    store_bias_level_code (.int 0) =
      .error (.valueError "The bias level must be positive") := by decide

/-- C8 amended: bias_level must be of type int (floats are rejected by both
revisions); negative integers are rejected by both; integers >= 1 are
accepted and stored unchanged by both; bias_level = 0 is accepted by the
`Artificial_Images_Simulator` revision but rejected by the
`Artificial_Image_Simulator` revision. -/
theorem C8_bias_level_validation (q : ℚ) (n : ℤ) :
    (store_bias_level_code (.float q) =
        .error (.valueError "The bias level must be an integer") ∧
      store_bias_level_ais (.float q) =
        .error (.valueError "The bias level must be an integer")) ∧
    (n < 0 →
      store_bias_level_code (.int n) =
          .error (.valueError "The bias level must be positive") ∧
        store_bias_level_ais (.int n) =
          .error (.valueError "The bias level must be positive")) ∧
    (1 ≤ n →
      store_bias_level_code (.int n) = .ok (.int n) ∧
        store_bias_level_ais (.int n) = .ok (.int n)) ∧
    store_bias_level_ais (.int 0) = .ok (.int 0) ∧
    store_bias_level_code (.int 0) =
      .error (.valueError "The bias level must be positive") := by
  refine ⟨⟨?_, ?_⟩, fun hn => ⟨?_, ?_⟩, fun hn => ⟨?_, ?_⟩, by decide, by decide⟩
  · simp only [store_bias_level_code, pyTypeIsInt]
    rw [if_pos trivial]
  · simp only [store_bias_level_ais, pyTypeIsInt]
    rw [if_pos trivial]
  · simp only [store_bias_level_code, pyTypeIsInt, PyNum.toQ]
    rw [if_neg bool_true_ne_false,
      if_pos (show (n : ℚ) ≤ 0 by exact_mod_cast hn.le)]
  · simp only [store_bias_level_ais, pyTypeIsInt, PyNum.toQ]
    rw [if_neg bool_true_ne_false,
      if_neg (show ¬((0 : ℚ) ≤ (n : ℚ)) from not_le.2 (by exact_mod_cast hn))]
  · simp only [store_bias_level_code, pyTypeIsInt, PyNum.toQ]
    rw [if_neg bool_true_ne_false,
      if_neg (show ¬((n : ℚ) ≤ 0) from not_le.2 (by exact_mod_cast hn))]
  · simp only [store_bias_level_ais, pyTypeIsInt, PyNum.toQ]
    rw [if_neg bool_true_ne_false,
      if_pos (show (0 : ℚ) ≤ (n : ℚ) by
        exact_mod_cast (by omega : (0 : ℤ) ≤ n))]

/-- Witness for C8 at concrete inputs: a float 500.0 is rejected, -1 is
rejected, and 500 is accepted by both revisions. -/
theorem C8_witness :
    store_bias_level_code (.float 500) =
        .error (.valueError "The bias level must be an integer") ∧
      store_bias_level_code (.int (-1)) =
        .error (.valueError "The bias level must be positive") ∧
      store_bias_level_code (.int 500) = .ok (.int 500) :=
  ⟨(C8_bias_level_validation 500 0).1.1,
    ((C8_bias_level_validation 500 (-1)).2.1 (by decide)).1,
    ((C8_bias_level_validation 500 500).2.2.1 (by decide)).1⟩

/-- A Python object as passed for `image_dir`: a string or a number. -/
inductive PyObj where
  | str (s : String)
  | num (v : PyNum)
  deriving DecidableEq, Repr

/-- Image-directory handling of the constructors (src/code/AIS/AIS.py lines
161-168 and src/AIS/AIS.py lines 169-176, identical): non-strings are
rejected; a non-empty string not ending in a backslash gets one appended
(`if '\\' not in image_dir[-1]: image_dir += '\\'`); the empty string and
strings already ending in a backslash are stored unchanged. -/
def store_image_dir (dir : PyObj) : Except PyErr String :=
  match dir with
  | .num _ => .error (.valueError "The directory path must be a string")
  | .str s =>
    if s ≠ "" then
      (if s.data.getLast? = some (Char.ofNat 92) then .ok s
       else .ok (s ++ "\\"))
    else .ok s

/-- C10: every non-string image_dir is rejected with a ValueError; a
non-empty string whose last character is not a backslash is stored with a
single backslash appended; the empty string and strings ending in a
backslash are stored unchanged. -/
theorem C10_image_dir_normalization (v : PyNum) (s t : String) (hs1 : s ≠ "")
    (hs2 : s.data.getLast? ≠ some (Char.ofNat 92))
    (ht : t.data.getLast? = some (Char.ofNat 92)) :
    store_image_dir (.num v) =
      .error (.valueError "The directory path must be a string") ∧
    store_image_dir (.str s) = .ok (s ++ "\\") ∧
    store_image_dir (.str "") = .ok "" ∧
    store_image_dir (.str t) = .ok t := by
  have ht0 : t ≠ "" := by
    intro h
    rw [h] at ht
    exact absurd ht (by decide)
  refine ⟨rfl, ?_, by decide, ?_⟩
  · simp only [store_image_dir]
    rw [if_pos hs1, if_neg hs2]
  · simp only [store_image_dir]
    rw [if_pos ht0, if_pos ht]

/-- Witness for C10 at concrete inputs: the number 1 is rejected, "images"
becomes "images\\" (one backslash appended), "" stays "", and a directory
already ending in a backslash stays unchanged. -/
theorem C10_witness :
    store_image_dir (.num (.int 1)) =
      .error (.valueError "The directory path must be a string") ∧
    store_image_dir (.str "images") = .ok ("images" ++ "\\") ∧
    store_image_dir (.str "") = .ok "" ∧
    store_image_dir (.str "images\\") = .ok "images\\" :=
  C10_image_dir_normalization (.int 1) "images" "images\\" (by decide)
    (by decide) (by decide)

/-- Modelled from the spec: the `Read_Noise_Calculation` class (RNC package)
is not part of the sources.  §4.2 prescribes a per-channel calibration table
read at the row index resolved by the base-plus-preamp-offset arithmetic and
at the column of the binning setting; the Channel 1 cell values are fixed by
the §8 / test reference set (one scalar per row-column pair, written as exact
two-decimal rationals).  An unresolvable row or column is fatal. -/
def read_noise_table : List (ℕ × ℚ × ℚ) :=
  [(3, mkRat 26201 100, mkRat 27319 100),
   (5, mkRat 16925 100, mkRat 14359 100),
   (7, mkRat 16006 100, mkRat 16198 100),
   (9, mkRat 6601 100, mkRat 7271 100),
   (11, mkRat 8368 100, mkRat 8293 100),
   (13, mkRat 4171 100, mkRat 4182 100),
   (15, mkRat 2464 100, mkRat 3376 100),
   (17, mkRat 1205 100, mkRat 1455 100),
   (19, mkRat 667 100, mkRat 694 100),
   (21, mkRat 476 100, mkRat 479 100),
   (23, mkRat 878 100, mkRat 884 100),
   (25, mkRat 346 100, mkRat 327 100)]

/-- Modelled from the spec: read the calibration cell at a resolved row
index for the given binning setting (columns exist for binn 1 and 2);
a missing table entry is fatal, never silently defaulted (§4.2). -/
def calibration_read_noise_cell (idx : ℕ) (binn : ℚ) : Except PyErr ℚ :=
  match read_noise_table.find? (fun r => r.1 == idx) with
  | none => .error (.valueError "Unresolvable calibration table index")
  | some r =>
    if binn = 1 then .ok r.2.1
    else if binn = 2 then .ok r.2.2
    else .error (.valueError "Unresolvable calibration table index")

/-- Modelled from the spec: `Read_Noise_Calculation.calculate_read_noise`
(called from `Abstract_Channel_Creator.calculate_read_noise`,
src/code/CHC/channel_creator.py lines 76-86) resolves the table index from
(hss, em_mode, preamp) and reads the read noise for the binning setting;
`em_gain` is part of the operating point (the reference set fixes em_gain=1
for conventional rows and em_gain=2 for EM rows) but selects no further
scaling in the reference configuration. -/
def calculate_read_noise (em_mode em_gain hss preamp binn : ℚ) : Except PyErr ℚ :=
  match configure_gain_tab_index hss em_mode preamp with
  | .error e => .error e
  | .ok idx => calibration_read_noise_cell idx binn

/-- Rounding to two decimals, in exact rational arithmetic (the Python test
compares `round(rn, 2)`; every reference value is an exact two-decimal
number, for which rounding is the identity). -/
def round2 (q : ℚ) : ℚ := mkRat ((2 * 100 * q.num + q.den) / (2 * q.den)) 100

/-- The 24-entry reference set of §8 (the full table of
test_RNC_class.py::test_calc_read_noise): operating point
(em_mode, em_gain, hss, preamp, binn) and read noise in electrons/pixel. -/
def reference_read_noise : List ((ℚ × ℚ × ℚ × ℚ × ℚ) × ℚ) :=
  [((0, 1, mkRat 1 10, 1, 1), mkRat 878 100),
   ((0, 1, mkRat 1 10, 1, 2), mkRat 884 100),
   ((0, 1, mkRat 1 10, 2, 1), mkRat 346 100),
   ((0, 1, mkRat 1 10, 2, 2), mkRat 327 100),
   ((0, 1, 1, 1, 1), mkRat 667 100),
   ((0, 1, 1, 1, 2), mkRat 694 100),
   ((0, 1, 1, 2, 1), mkRat 476 100),
   ((0, 1, 1, 2, 2), mkRat 479 100),
   ((1, 2, 1, 1, 1), mkRat 2464 100),
   ((1, 2, 1, 1, 2), mkRat 3376 100),
   ((1, 2, 1, 2, 1), mkRat 1205 100),
   ((1, 2, 1, 2, 2), mkRat 1455 100),
   ((1, 2, 10, 1, 1), mkRat 8368 100),
   ((1, 2, 10, 1, 2), mkRat 8293 100),
   ((1, 2, 10, 2, 1), mkRat 4171 100),
   ((1, 2, 10, 2, 2), mkRat 4182 100),
   ((1, 2, 20, 1, 1), mkRat 16006 100),
   ((1, 2, 20, 1, 2), mkRat 16198 100),
   ((1, 2, 20, 2, 1), mkRat 6601 100),
   ((1, 2, 20, 2, 2), mkRat 7271 100),
   ((1, 2, 30, 1, 1), mkRat 26201 100),
   ((1, 2, 30, 1, 2), mkRat 27319 100),
   ((1, 2, 30, 2, 1), mkRat 16925 100),
   ((1, 2, 30, 2, 2), mkRat 14359 100)]

/-- C3: the read-noise calculation is a pure function of the operating
point (so repeated calls with the same CCD operation mode return identical
values), and on each of the 24 reference operating points it produces the
reference read noise exactly to two decimals, including
(em_mode=0, hss=0.1, preamp=1, binn=1) -> 8.78 and
(em_mode=1, em_gain=2, hss=30, preamp=2, binn=2) -> 143.59. -/
theorem C3_read_noise_reference (k : ℚ × ℚ × ℚ × ℚ × ℚ) (v : ℚ)
    (hmem : (k, v) ∈ reference_read_noise) :
    ∃ rn, calculate_read_noise k.1 k.2.1 k.2.2.1 k.2.2.2.1 k.2.2.2.2 = .ok rn ∧
      round2 rn = v := by
  fin_cases hmem <;> exact ⟨_, rfl, by decide⟩

/-- Witness for C3 at the two named reference entries. -/
theorem C3_witness :
    (∃ rn, calculate_read_noise 0 1 (mkRat 1 10) 1 1 = .ok rn ∧
      round2 rn = mkRat 878 100) ∧
    (∃ rn, calculate_read_noise 1 2 30 2 2 = .ok rn ∧
      round2 rn = mkRat 14359 100) :=
  ⟨C3_read_noise_reference (0, 1, mkRat 1 10, 1, 1) (mkRat 878 100) (by decide),
    C3_read_noise_reference (1, 2, 30, 2, 2) (mkRat 14359 100) (by decide)⟩

/-- Element-wise addition of two numpy arrays (`background + star_PSF`). -/
def npAdd (a b : List (List ℚ)) : List (List ℚ) :=
  List.zipWith (List.zipWith (fun x y => x + y)) a b

/-- `Artificial_Image_Simulator.create_artificial_image`
(src/code/AIS/AIS.py lines 312-330): the written image is the element-wise
sum of the background-generator output and the PSF-generator output, with no
other arithmetic in between (the generators themselves are external to the
sources and enter as the two argument arrays). -/
def create_artificial_image (background star_PSF : List (List ℚ)) :
    List (List ℚ) :=
  npAdd background star_PSF

/-- C6: for every pixel position (i, j) inside two equal-shaped generator
outputs, the composed image satisfies
final_image[i][j] = background[i][j] + star_PSF[i][j]. -/
theorem C6_pixelwise_sum (bg psf : List (List ℚ)) (i j : ℕ)
    (hi : i < bg.length) (hlen : psf.length = bg.length)
    (hj : j < (bg.getD i []).length)
    (hrow : (psf.getD i []).length = (bg.getD i []).length) :
    ((create_artificial_image bg psf).getD i []).getD j 0 =
      (bg.getD i []).getD j 0 + (psf.getD i []).getD j 0 := by
  unfold create_artificial_image npAdd
  have hpi : i < psf.length := by rw [hlen]; exact hi
  have hzl : i < (List.zipWith (List.zipWith (fun x y => x + y)) bg psf).length := by
    rw [List.length_zipWith, hlen, Nat.min_self]
    exact hi
  rw [List.getD_eq_getElem _ _ hzl, List.getElem_zipWith,
    List.getD_eq_getElem _ _ hi, List.getD_eq_getElem _ _ hpi]
  have hj2 : j < (psf[i]).length := by
    rw [← List.getD_eq_getElem psf [] hpi, hrow]
    exact hj
  have hjz : j < (List.zipWith (fun x y => x + y) (bg[i]) (psf[i])).length := by
    rw [List.length_zipWith, ← List.getD_eq_getElem bg [] hi,
      ← List.getD_eq_getElem psf [] hpi, hrow, Nat.min_self]
    exact hj
  have hj1 : j < (bg[i]).length := by
    rw [← List.getD_eq_getElem bg [] hi]
    exact hj
  rw [List.getD_eq_getElem _ _ hjz, List.getElem_zipWith,
    List.getD_eq_getElem _ _ hj1, List.getD_eq_getElem _ _ hj2]

/-- Witness for C6 on a concrete 2x2 background and PSF: the pixel (0, 1) of
the composed image is 2 + 20 = 22. -/
theorem C6_witness :
    ((create_artificial_image [[1, 2], [3, 4]] [[10, 20], [30, 40]]).getD 0
      []).getD 1 0 = (22 : ℚ) := by
  rw [C6_pixelwise_sum [[1, 2], [3, 4]] [[10, 20], [30, 40]] 0 1 (by decide)
    (by decide) (by decide) (by decide)]
  norm_num

theorem except_throw {α : Type} (e : PyErr) :
    (throw e : Except PyErr α) = Except.error e := rfl

theorem except_pure {α : Type} (a : α) :
    (pure a : Except PyErr α) = Except.ok a := rfl

/-- The missing-parameter comparison of the `Artificial_Image_Simulator`
revision can never fire: `list.sort()` returns `None` on both sides. -/
theorem sort_check_skip (d : PyDict) :
    ¬(pyListSortRet d.keys ≠ pyListSortRet dic_keywords_list_code) := by
  simp [pyListSortRet]

/-- When all seven fields are present and no unknown key exists, the key
stage returns the extracted values. -/
theorem verify_keys_code_ok (d : PyDict) (v1 v2 v3 v4 v5 v6 v7 : PyNum)
    (h1 : pyGet d "em_mode" = .ok v1) (h2 : pyGet d "em_gain" = .ok v2)
    (h3 : pyGet d "hss" = .ok v3) (h4 : pyGet d "preamp" = .ok v4)
    (h5 : pyGet d "binn" = .ok v5) (h6 : pyGet d "t_exp" = .ok v6)
    (h7 : pyGet d "ccd_temp" = .ok v7)
    (hfind : d.find? (fun kv => !(dic_keywords_list_code.contains kv.1)) =
      none) :
    verify_keys_code d = .ok ⟨v1, v2, v3, v4, v5, v6, v7⟩ := by
  simp only [verify_keys_code, h1, h2, h3, h4, h5, h6, h7, except_bind_ok,
    hfind, if_neg (sort_check_skip d), except_pure, except_bind_err]

/-- When all seven fields are present but an unknown key exists, the key
stage raises the not-a-CCD-parameter `ValueError` for the first such key. -/
theorem verify_keys_code_extra (d : PyDict) (v1 v2 v3 v4 v5 v6 v7 : PyNum)
    (h1 : pyGet d "em_mode" = .ok v1) (h2 : pyGet d "em_gain" = .ok v2)
    (h3 : pyGet d "hss" = .ok v3) (h4 : pyGet d "preamp" = .ok v4)
    (h5 : pyGet d "binn" = .ok v5) (h6 : pyGet d "t_exp" = .ok v6)
    (h7 : pyGet d "ccd_temp" = .ok v7) (kv : String × PyNum)
    (hfind : d.find? (fun kv => !(dic_keywords_list_code.contains kv.1)) =
      some kv) :
    verify_keys_code d =
      .error (.valueError
        ("The name provided is not a CCD parameter: " ++ kv.1)) := by
  simp only [verify_keys_code, h1, h2, h3, h4, h5, h6, h7, except_bind_ok,
    hfind, except_throw, except_bind_err]

theorem verify_code_of_keys_err (d : PyDict) (e : PyErr)
    (h : verify_keys_code d = .error e) :
    verify_ccd_operation_mode_code d = .error e := by
  simp only [verify_ccd_operation_mode_code, h, except_bind_err]

theorem verify_code_of_keys_ok (d : PyDict) (v : ModeVals)
    (h : verify_keys_code d = .ok v) :
    verify_ccd_operation_mode_code d = verify_values_code v := by
  simp only [verify_ccd_operation_mode_code, h, except_bind_ok]

/-- A dictionary missing a required field dies with a `KeyError` at field
extraction, before any explicit check runs. -/
theorem verify_code_missing_key (d : PyDict)
    (hmiss : ∃ k ∈ dic_keywords_list_code, k ∉ d.keys) :
    ∃ k, verify_ccd_operation_mode_code d = .error (.keyError k) := by
  by_cases h1 : "em_mode" ∈ d.keys
  case neg =>
    exact ⟨"em_mode", verify_code_of_keys_err d _ (by
      simp only [verify_keys_code, pyGet_of_not_mem d _ h1, except_bind_err])⟩
  obtain ⟨w1, hw1⟩ := pyGet_of_mem d _ h1
  by_cases h2 : "em_gain" ∈ d.keys
  case neg =>
    exact ⟨"em_gain", verify_code_of_keys_err d _ (by
      simp only [verify_keys_code, hw1, except_bind_ok,
        pyGet_of_not_mem d _ h2, except_bind_err])⟩
  obtain ⟨w2, hw2⟩ := pyGet_of_mem d _ h2
  by_cases h3 : "hss" ∈ d.keys
  case neg =>
    exact ⟨"hss", verify_code_of_keys_err d _ (by
      simp only [verify_keys_code, hw1, hw2, except_bind_ok,
        pyGet_of_not_mem d _ h3, except_bind_err])⟩
  obtain ⟨w3, hw3⟩ := pyGet_of_mem d _ h3
  by_cases h4 : "preamp" ∈ d.keys
  case neg =>
    exact ⟨"preamp", verify_code_of_keys_err d _ (by
      simp only [verify_keys_code, hw1, hw2, hw3, except_bind_ok,
        pyGet_of_not_mem d _ h4, except_bind_err])⟩
  obtain ⟨w4, hw4⟩ := pyGet_of_mem d _ h4
  by_cases h5 : "binn" ∈ d.keys
  case neg =>
    exact ⟨"binn", verify_code_of_keys_err d _ (by
      simp only [verify_keys_code, hw1, hw2, hw3, hw4, except_bind_ok,
        pyGet_of_not_mem d _ h5, except_bind_err])⟩
  obtain ⟨w5, hw5⟩ := pyGet_of_mem d _ h5
  by_cases h6 : "t_exp" ∈ d.keys
  case neg =>
    exact ⟨"t_exp", verify_code_of_keys_err d _ (by
      simp only [verify_keys_code, hw1, hw2, hw3, hw4, hw5, except_bind_ok,
        pyGet_of_not_mem d _ h6, except_bind_err])⟩
  obtain ⟨w6, hw6⟩ := pyGet_of_mem d _ h6
  by_cases h7 : "ccd_temp" ∈ d.keys
  case neg =>
    exact ⟨"ccd_temp", verify_code_of_keys_err d _ (by
      simp only [verify_keys_code, hw1, hw2, hw3, hw4, hw5, hw6,
        except_bind_ok, pyGet_of_not_mem d _ h7, except_bind_err])⟩
  obtain ⟨k, hk, hnk⟩ := hmiss
  fin_cases hk
  · exact absurd h5 hnk
  · exact absurd h7 hnk
  · exact absurd h2 hnk
  · exact absurd h1 hnk
  · exact absurd h3 hnk
  · exact absurd h4 hnk
  · exact absurd h6 hnk

/-- A dictionary with all required fields and some unknown key dies with the
not-a-CCD-parameter `ValueError`. -/
theorem verify_code_extra_key (d : PyDict)
    (hall : ∀ k ∈ dic_keywords_list_code, k ∈ d.keys)
    (hex : ∃ k ∈ d.keys, k ∉ dic_keywords_list_code) :
    ∃ k, k ∈ d.keys ∧ k ∉ dic_keywords_list_code ∧
      verify_ccd_operation_mode_code d =
        .error (.valueError
          ("The name provided is not a CCD parameter: " ++ k)) := by
  obtain ⟨w1, hw1⟩ := pyGet_of_mem d _ (hall "em_mode" (by decide))
  obtain ⟨w2, hw2⟩ := pyGet_of_mem d _ (hall "em_gain" (by decide))
  obtain ⟨w3, hw3⟩ := pyGet_of_mem d _ (hall "hss" (by decide))
  obtain ⟨w4, hw4⟩ := pyGet_of_mem d _ (hall "preamp" (by decide))
  obtain ⟨w5, hw5⟩ := pyGet_of_mem d _ (hall "binn" (by decide))
  obtain ⟨w6, hw6⟩ := pyGet_of_mem d _ (hall "t_exp" (by decide))
  obtain ⟨w7, hw7⟩ := pyGet_of_mem d _ (hall "ccd_temp" (by decide))
  obtain ⟨k, hkmem, hknot⟩ := hex
  obtain ⟨kv, hkv, hkv1⟩ := List.mem_map.1 hkmem
  have hp : (fun kv => !(dic_keywords_list_code.contains kv.1)) kv = true := by
    show (!(dic_keywords_list_code.contains kv.1)) = true
    rw [hkv1]
    simpa using hknot
  have hs : (d.find?
      (fun kv => !(dic_keywords_list_code.contains kv.1))).isSome :=
    List.find?_isSome.2 ⟨kv, hkv, hp⟩
  obtain ⟨kv0, hfind⟩ := Option.isSome_iff_exists.1 hs
  have hp0 := List.find?_some hfind
  have hmem0 := List.mem_of_find?_eq_some hfind
  exact ⟨kv0.1, List.mem_map.2 ⟨kv0, hmem0, rfl⟩, by simpa using hp0,
    verify_code_of_keys_err d _
      (verify_keys_code_extra d w1 w2 w3 w4 w5 w6 w7 hw1 hw2 hw3 hw4 hw5 hw6
        hw7 kv0 hfind)⟩

/-- A dictionary whose key set is exactly the seven required keys passes the
key stage, which hands the extracted values to the value checks. -/
theorem verify_code_exact_keys (d : PyDict)
    (hsub : ∀ k ∈ d.keys, k ∈ dic_keywords_list_code)
    (hall : ∀ k ∈ dic_keywords_list_code, k ∈ d.keys) :
    ∃ v, verify_keys_code d = .ok v ∧
      verify_ccd_operation_mode_code d = verify_values_code v := by
  obtain ⟨w1, hw1⟩ := pyGet_of_mem d _ (hall "em_mode" (by decide))
  obtain ⟨w2, hw2⟩ := pyGet_of_mem d _ (hall "em_gain" (by decide))
  obtain ⟨w3, hw3⟩ := pyGet_of_mem d _ (hall "hss" (by decide))
  obtain ⟨w4, hw4⟩ := pyGet_of_mem d _ (hall "preamp" (by decide))
  obtain ⟨w5, hw5⟩ := pyGet_of_mem d _ (hall "binn" (by decide))
  obtain ⟨w6, hw6⟩ := pyGet_of_mem d _ (hall "t_exp" (by decide))
  obtain ⟨w7, hw7⟩ := pyGet_of_mem d _ (hall "ccd_temp" (by decide))
  have hfind : d.find?
      (fun kv => !(dic_keywords_list_code.contains kv.1)) = none := by
    refine List.find?_eq_none.2 fun kv hkv => ?_
    have : kv.1 ∈ dic_keywords_list_code :=
      hsub kv.1 (List.mem_map.2 ⟨kv, hkv, rfl⟩)
    simpa using this
  have hok := verify_keys_code_ok d w1 w2 w3 w4 w5 w6 w7 hw1 hw2 hw3 hw4 hw5
    hw6 hw7 hfind
  exact ⟨⟨w1, w2, w3, w4, w5, w6, w7⟩, hok, verify_code_of_keys_ok d _ hok⟩

/-- An operation mode lacking `ccd_temp`, all other values valid. -/
def missing_temp_dict : PyDict :=
  [("em_mode", .int 0), ("em_gain", .int 1), ("preamp", .int 1),
   ("hss", .int 1), ("binn", .int 1), ("t_exp", .int 1)]

/-- A valid conventional operation mode plus one unknown key. -/
def extra_key_dict : PyDict :=
  [("em_mode", .int 0), ("em_gain", .int 1), ("preamp", .int 1),
   ("hss", .int 1), ("binn", .int 1), ("t_exp", .int 1),
   ("ccd_temp", .int (-70)), ("sky_flux", .int 3)]

/-- Whether a verification outcome is a `ValueError` failure. -/
def isValueErrorResult : Except PyErr Unit → Bool
  | .error (.valueError _) => true
  | _ => false

/-- C7 counterexample: for the dictionary missing `ccd_temp`, the
`Artificial_Image_Simulator` validation fails with `KeyError` raised while
extracting the field — an error, but not the ValueError-class configuration
error the claim asserts for every missing-key dictionary. -/
theorem C7_counterexample :
    verify_ccd_operation_mode_code missing_temp_dict =
      .error (.keyError "ccd_temp") ∧
    isValueErrorResult (verify_ccd_operation_mode_code missing_temp_dict) =
      false := by
  constructor
  · decide
  · decide

/-- C7 amended: in the `Artificial_Image_Simulator` revision, a dictionary
missing one of the seven required keys fails with a `KeyError` (raised when
the field is first read, not a ValueError); a dictionary with all seven keys
and a key outside the set fails with the not-a-CCD-parameter `ValueError`;
and every dictionary whose key set is exactly the seven keys passes the
key-set check (the missing-parameter comparison can never fire, since
`list.sort()` returns `None` on both sides). -/
theorem C7_key_set_validation (d : PyDict) :
    ((∃ k ∈ dic_keywords_list_code, k ∉ d.keys) →
      ∃ k, verify_ccd_operation_mode_code d = .error (.keyError k)) ∧
    ((∀ k ∈ dic_keywords_list_code, k ∈ d.keys) →
      (∃ k ∈ d.keys, k ∉ dic_keywords_list_code) →
      ∃ k, k ∈ d.keys ∧ k ∉ dic_keywords_list_code ∧
        verify_ccd_operation_mode_code d =
          .error (.valueError
            ("The name provided is not a CCD parameter: " ++ k))) ∧
    ((∀ k ∈ d.keys, k ∈ dic_keywords_list_code) →
      (∀ k ∈ dic_keywords_list_code, k ∈ d.keys) →
      ∃ v, verify_keys_code d = .ok v ∧
        verify_ccd_operation_mode_code d = verify_values_code v) :=
  ⟨verify_code_missing_key d, verify_code_extra_key d,
    verify_code_exact_keys d⟩

/-- Witness for C7 at concrete dictionaries: one missing `ccd_temp`, one
with the unknown key `sky_flux`, and one with exactly the seven keys. -/
theorem C7_witness :
    (∃ k, verify_ccd_operation_mode_code missing_temp_dict =
      .error (.keyError k)) ∧
    (∃ k, k ∈ extra_key_dict.keys ∧ k ∉ dic_keywords_list_code ∧
      verify_ccd_operation_mode_code extra_key_dict =
        .error (.valueError
          ("The name provided is not a CCD parameter: " ++ k))) ∧
    (∃ v, verify_keys_code emModeDictCode = .ok v ∧
      verify_ccd_operation_mode_code emModeDictCode = verify_values_code v) :=
  ⟨(C7_key_set_validation missing_temp_dict).1 (by decide),
    (C7_key_set_validation extra_key_dict).2.1 (by decide) (by decide),
    (C7_key_set_validation emModeDictCode).2.2 (by decide) (by decide)⟩

/-- C9: in the `Artificial_Images_Simulator` revision the key check is
order-sensitive — every dictionary whose keys are a permutation of
[em_mode, em_gain, preamp, hss, bin, t_exp, ccd_temp] in any other insertion
order is rejected with the missing-parameter ValueError even though no key
is missing or extra. -/
theorem C9_order_sensitive_key_check (d : PyDict)
    (hperm : d.keys.Perm dic_keywords_list_ais)
    (hne : d.keys ≠ dic_keywords_list_ais) :
    verify_ccd_operation_mode_ais d =
      .error (.valueError
        "There is a missing parameter of the CCD operation mode") := by
  have hfind : d.find?
      (fun kv => !(dic_keywords_list_ais.contains kv.1)) = none := by
    refine List.find?_eq_none.2 fun kv hkv => ?_
    have : kv.1 ∈ dic_keywords_list_ais :=
      hperm.mem_iff.1 (List.mem_map.2 ⟨kv, hkv, rfl⟩)
    simpa using this
  simp only [verify_ccd_operation_mode_ais, hfind, except_pure,
    except_bind_ok, if_pos hne, except_throw, except_bind_err]

/-- A dictionary holding exactly the seven keys of the
`Artificial_Images_Simulator` convention, with the first two swapped. -/
def reordered_dict_ais : PyDict :=
  [("em_gain", .int 1), ("em_mode", .int 0), ("preamp", .int 1),
   ("hss", .int 1), ("bin", .int 1), ("t_exp", .int 1),
   ("ccd_temp", .int (-70))]

/-- Witness for C9: swapping the first two keys of an otherwise valid
conventional mode makes validation fail with the missing-parameter error. -/
theorem C9_witness :
    verify_ccd_operation_mode_ais reordered_dict_ais =
      .error (.valueError
        "There is a missing parameter of the CCD operation mode") :=
  C9_order_sensitive_key_check reordered_dict_ais (by decide) (by decide)

end AISVerif
